import Mathlib

/-!
Formal model of the MediKeep backend (medikeep-final-year) security and
audit subsystem.  Definitions are shallow embeddings of the Python source
under `backend/app/`; each definition cites the file it was translated
from.  Components whose source file is not part of the provided sources
(`backend/app/utils/security.py`, `backend/app/utils/auth.py`) are
modelled from the specification and are marked as such in their doc
comments.
-/

namespace MediKeep

/-- Role enumeration from `backend/app/models/user.py` (`class UserRole`).
The set is closed: exactly these four members exist. -/
inductive UserRole where
  | ADMIN
  | CLINIC_ADMIN
  | CLINIC_STAFF
  | PATIENT
  deriving DecidableEq, Repr

/-- Audit action enumeration from `backend/app/models/audit_log.py`. -/
inductive AuditAction where
  | CREATE
  | UPDATE
  | DELETE
  | VIEW
  | DOWNLOAD
  | LOGIN
  | LOGOUT
  | UPLOAD
  | ASSIGN
  | PROCESS
  | EXPORT
  deriving DecidableEq, Repr

/-- Audit entity-type enumeration from `backend/app/models/audit_log.py`. -/
inductive AuditEntityType where
  | USER
  | PATIENT
  | DOCUMENT
  | CLINIC
  | EXTRACTION
  | SYSTEM
  deriving DecidableEq, Repr

/-- Document type enumeration from `backend/app/models/document.py`. -/
inductive DocumentType where
  | LAB_REPORT
  | PRESCRIPTION
  | MEDICAL_RECORD
  | IMAGING_REPORT
  | DISCHARGE_SUMMARY
  | OTHER
  deriving DecidableEq, Repr

/-- Document status enumeration from `backend/app/models/document.py`. -/
inductive DocumentStatus where
  | UPLOADED
  | PROCESSING
  | PROCESSED
  | FAILED
  deriving DecidableEq, Repr

/-- Password digest produced by the credential hasher.  Modelled from the
spec: `get_password_hash` lives in `backend/app/utils/auth.py`, which is
not among the provided sources; spec section 4.1 describes a one-way
salted hash, modelled here as a salt paired with a salted code of the
plaintext. -/
structure PasswordDigest where
  salt : Nat
  code : Nat
  deriving DecidableEq, Repr

/-- Row of the `users` table, `backend/app/models/user.py` (columns not
consulted by the embedded endpoints are omitted). -/
structure User where
  id : Nat
  email : String
  hashed_password : PasswordDigest
  role : UserRole
  is_active : Bool
  deriving DecidableEq, Repr

/-- Row of the `clinics` table, `backend/app/models/clinic.py`.
`admin_user_id` is a nullable foreign key onto `users.id`. -/
structure Clinic where
  id : Nat
  name : String
  license_number : String
  admin_user_id : Option Nat
  is_active : Bool
  deriving DecidableEq, Repr

/-- Row of the `patients` table, `backend/app/models/patient.py`
(demographic columns omitted; `user_id` and `clinic_id` are nullable). -/
structure Patient where
  id : Nat
  user_id : Option Nat
  clinic_id : Option Nat
  deriving DecidableEq, Repr

/-- Row of the `documents` table, `backend/app/models/document.py`
(`patient_id` and `clinic_id` are nullable). -/
structure Document where
  id : Nat
  patient_id : Option Nat
  clinic_id : Option Nat
  filename : String
  original_filename : String
  file_path : String
  file_size : Nat
  mime_type : String
  document_type : DocumentType
  status : DocumentStatus
  notes : Option String
  deriving DecidableEq, Repr

/-- Row of the `audit_logs` table, `backend/app/models/audit_log.py`
(timestamps are modelled as integers; request-context columns omitted). -/
structure AuditLog where
  id : Nat
  user_id : Option Nat
  user_email : Option String
  user_role : Option String
  action : AuditAction
  entity_type : AuditEntityType
  entity_id : Option String
  clinic_id : Option Nat
  patient_id : Option Nat
  description : String
  success : Bool
  created_at : Int
  deriving DecidableEq, Repr

/-- State of the relational store consulted by the endpoints, plus the
set of file paths present in upload storage (for `os.path.exists`). -/
structure Db where
  users : List User
  clinics : List Clinic
  patients : List Patient
  documents : List Document
  audit_logs : List AuditLog
  files : List String
  deriving DecidableEq, Repr

/-- HTTP error raised by a handler (`HTTPException(status_code, detail)`). -/
structure HttpError where
  status_code : Nat
  detail : String
  deriving DecidableEq, Repr

instance {ε α : Type} [DecidableEq ε] [DecidableEq α] : DecidableEq (Except ε α) :=
  fun x y =>
    match x, y with
    | .error a, .error b =>
      if h : a = b then .isTrue (by rw [h])
      else .isFalse (fun hc => h (Except.error.inj hc))
    | .error _, .ok _ => .isFalse (fun hc => Except.noConfusion hc)
    | .ok _, .error _ => .isFalse (fun hc => Except.noConfusion hc)
    | .ok a, .ok b =>
      if h : a = b then .isTrue (by rw [h])
      else .isFalse (fun hc => h (Except.ok.inj hc))

/-- Clinic resolution used across the routers:
`db.query(Clinic).filter(Clinic.admin_user_id == current_user.id).first()`. -/
def resolveClinic (db : Db) (user_id : Nat) : Option Clinic :=
  db.clinics.find? (fun c => decide (c.admin_user_id = some user_id))

/-- Python truthiness of an `Optional[int]` value: `None` and `0` are
falsy, every other integer is truthy. -/
def pyTruthyNat : Option Nat → Bool
  | none => false
  | some n => decide (n ≠ 0)

/-- Python truthiness of an `Optional[str]` value: `None` and the empty
string are falsy. -/
def pyTruthyStr : Option String → Bool
  | none => false
  | some s => decide (s ≠ "")

/-- Caller-supplied filter set of `GET /audit/logs`
(`backend/app/routers/audit.py`, query parameters of `get_audit_logs`). -/
structure AuditLogsQuery where
  action : Option AuditAction
  entity_type : Option AuditEntityType
  user_id : Option Nat
  clinic_id : Option Nat
  patient_id : Option Nat
  date_from : Option Int
  date_to : Option Int
  success : Option Bool
  deriving DecidableEq, Repr

/-- The query with every filter absent (all route defaults are `None`). -/
def noFilters : AuditLogsQuery :=
  ⟨none, none, none, none, none, none, none, none⟩

/-- Role-based visibility filter of `get_audit_logs`
(`backend/app/routers/audit.py` lines 44-66).  `UserRole` is a closed
enumeration, so the final `else: raise HTTPException(403)` branch of the
source chain is unreachable and has no counterpart here. -/
def auditRoleScope (db : Db) (current_user : User) : AuditLog → Bool :=
  match current_user.role with
  | .ADMIN => fun _ => true
  | .CLINIC_ADMIN | .CLINIC_STAFF =>
    match resolveClinic db current_user.id with
    | some clinic => fun log => decide (log.clinic_id = some clinic.id)
    | none => fun log => decide (log.user_id = some current_user.id)
  | .PATIENT => fun log =>
    decide (log.user_id = some current_user.id) &&
      (decide (log.entity_type = .USER) || decide (log.entity_type = .DOCUMENT))

/-- Caller filters of `get_audit_logs` (`backend/app/routers/audit.py`
lines 68-84).  Integer filters follow Python truthiness (`if user_id:`),
so a filter value of `0` is not applied; the `success` filter uses
`is not None`. -/
def auditCallerFilters (q : AuditLogsQuery) (log : AuditLog) : Bool :=
  (match q.action with | none => true | some a => decide (log.action = a)) &&
  (match q.entity_type with | none => true | some t => decide (log.entity_type = t)) &&
  (if pyTruthyNat q.user_id then decide (log.user_id = q.user_id) else true) &&
  (if pyTruthyNat q.clinic_id then decide (log.clinic_id = q.clinic_id) else true) &&
  (if pyTruthyNat q.patient_id then decide (log.patient_id = q.patient_id) else true) &&
  (match q.date_from with | none => true | some d => decide (d ≤ log.created_at)) &&
  (match q.date_to with | none => true | some d => decide (log.created_at ≤ d)) &&
  (match q.success with | none => true | some b => decide (log.success = b))

/-- Insertion step of the newest-first ordering
(`order_by(desc(AuditLog.created_at))`). -/
def insertByCreatedDesc (x : AuditLog) : List AuditLog → List AuditLog
  | [] => [x]
  | y :: ys =>
    if y.created_at ≤ x.created_at then x :: y :: ys
    else y :: insertByCreatedDesc x ys

/-- Newest-first ordering of audit rows by `created_at`. -/
def sortByCreatedDesc : List AuditLog → List AuditLog
  | [] => []
  | x :: xs => insertByCreatedDesc x (sortByCreatedDesc xs)

/-- Offset pagination: `offset = (page - 1) * per_page` rows skipped,
then `limit per_page` rows taken. -/
def paginate {α : Type} (l : List α) (page per_page : Nat) : List α :=
  (l.drop ((page - 1) * per_page)).take per_page

/-- Response shape of the audit listing endpoints
(`backend/app/schemas/audit.py`, `AuditLogListResponse`). -/
structure AuditLogListResponse where
  logs : List AuditLog
  total : Nat
  page : Nat
  per_page : Nat
  deriving DecidableEq, Repr

/-- `GET /audit/logs` handler (`backend/app/routers/audit.py`,
`get_audit_logs`): role scope, then caller filters, then count, then
newest-first ordering with offset pagination. -/
def get_audit_logs (db : Db) (current_user : User) (page per_page : Nat)
    (q : AuditLogsQuery) : AuditLogListResponse :=
  let matched :=
    (db.audit_logs.filter (auditRoleScope db current_user)).filter
      (auditCallerFilters q)
  { logs := paginate (sortByCreatedDesc matched) page per_page
    total := matched.length
    page := page
    per_page := per_page }

/-- Caller-supplied filter set of `GET /documents/`
(`backend/app/routers/documents.py`, query parameters of `get_documents`). -/
structure DocumentsQuery where
  patient_id : Option Nat
  status : Option DocumentStatus
  document_type : Option DocumentType
  deriving DecidableEq, Repr

/-- The documents query with every filter absent. -/
def noDocFilters : DocumentsQuery := ⟨none, none, none⟩

/-- Role-based visibility filter of `get_documents`
(`backend/app/routers/documents.py` lines 103-120).  A patient principal
without a patient profile fails with 404; a clinic principal whose clinic
cannot be resolved falls into the source `else: pass` branch, which
leaves the query unrestricted. -/
def documentsRoleScope (db : Db) (current_user : User) :
    Except HttpError (Document → Bool) :=
  match current_user.role with
  | .PATIENT =>
    match db.patients.find? (fun p => decide (p.user_id = some current_user.id)) with
    | none => .error ⟨404, "Patient profile not found"⟩
    | some patient => .ok (fun d => decide (d.patient_id = some patient.id))
  | .CLINIC_ADMIN | .CLINIC_STAFF =>
    match resolveClinic db current_user.id with
    | some clinic => .ok (fun d => decide (d.clinic_id = some clinic.id))
    | none => .ok (fun _ => true)
  | .ADMIN => .ok (fun _ => true)

/-- Caller filters of `get_documents` (`backend/app/routers/documents.py`
lines 122-128); the integer filter follows Python truthiness. -/
def documentsCallerFilters (q : DocumentsQuery) (d : Document) : Bool :=
  (if pyTruthyNat q.patient_id then decide (d.patient_id = q.patient_id) else true) &&
  (match q.status with | none => true | some s => decide (d.status = s)) &&
  (match q.document_type with | none => true | some t => decide (d.document_type = t))

/-- Response shape of the document listing
(`backend/app/schemas/document.py`, `DocumentListResponse`). -/
structure DocumentListResponse where
  documents : List Document
  total : Nat
  page : Nat
  per_page : Nat
  deriving DecidableEq, Repr

/-- `GET /documents/` handler (`backend/app/routers/documents.py`,
`get_documents`): role scope, caller filters, count, offset pagination
(the source applies no ordering here). -/
def get_documents (db : Db) (current_user : User) (page per_page : Nat)
    (q : DocumentsQuery) : Except HttpError DocumentListResponse :=
  match documentsRoleScope db current_user with
  | .error e => .error e
  | .ok scope =>
    let matched := (db.documents.filter scope).filter (documentsCallerFilters q)
    .ok { documents := paginate matched page per_page
          total := matched.length
          page := page
          per_page := per_page }

/-- `GET /documents/{document_id}` handler
(`backend/app/routers/documents.py`, `get_document`).  For a clinic
principal the scope check runs only when a clinic resolves
(`if clinic and document.clinic_id != clinic.id`); an admin principal is
unrestricted. -/
def get_document (db : Db) (current_user : User) (document_id : Nat) :
    Except HttpError Document :=
  match db.documents.find? (fun d => decide (d.id = document_id)) with
  | none => .error ⟨404, "Document not found"⟩
  | some document =>
    match current_user.role with
    | .PATIENT =>
      match db.patients.find? (fun p => decide (p.user_id = some current_user.id)) with
      | none => .error ⟨403, "Access denied"⟩
      | some patient =>
        if document.patient_id ≠ some patient.id then .error ⟨403, "Access denied"⟩
        else .ok document
    | .CLINIC_ADMIN | .CLINIC_STAFF =>
      match resolveClinic db current_user.id with
      | some clinic =>
        if document.clinic_id ≠ some clinic.id then .error ⟨403, "Access denied"⟩
        else .ok document
      | none => .ok document
    | .ADMIN => .ok document

/-- File payload returned by `GET /documents/{document_id}/download`. -/
structure FileResponsePayload where
  path : String
  filename : String
  media_type : String
  deriving DecidableEq, Repr

/-- `GET /documents/{document_id}/download` handler
(`backend/app/routers/documents.py`, `download_document`): permission
logic identical to `get_document`, then an `os.path.exists` check on the
stored file path. -/
def download_document (db : Db) (current_user : User) (document_id : Nat) :
    Except HttpError FileResponsePayload :=
  match db.documents.find? (fun d => decide (d.id = document_id)) with
  | none => .error ⟨404, "Document not found"⟩
  | some document =>
    let serve : Except HttpError FileResponsePayload :=
      if document.file_path ∈ db.files then
        .ok ⟨document.file_path, document.original_filename, document.mime_type⟩
      else .error ⟨404, "File not found on server"⟩
    match current_user.role with
    | .PATIENT =>
      match db.patients.find? (fun p => decide (p.user_id = some current_user.id)) with
      | none => .error ⟨403, "Access denied"⟩
      | some patient =>
        if document.patient_id ≠ some patient.id then .error ⟨403, "Access denied"⟩
        else serve
    | .CLINIC_ADMIN | .CLINIC_STAFF =>
      match resolveClinic db current_user.id with
      | some clinic =>
        if document.clinic_id ≠ some clinic.id then .error ⟨403, "Access denied"⟩
        else serve
      | none => serve
    | .ADMIN => serve

/-- Result of `save_upload_file` (storage write precedes clinic
resolution in `upload_document`). -/
structure UploadSaved where
  file_path : String
  unique_filename : String
  file_size : Nat
  deriving DecidableEq, Repr

/-- `POST /documents/upload` handler after a successful file save
(`backend/app/routers/documents.py`, `upload_document` lines 42-88).
For a clinic principal with no resolvable clinic the source assigns the
hardcoded `clinic_id = 1`; any other unresolved case fails with 400
(`if not clinic_id`, Python truthiness).  The created row id is modelled
as the next store index. -/
def upload_document (db : Db) (current_user : User) (saved : UploadSaved)
    (upload_filename : Option String) (content_type : Option String)
    (patient_id : Option Nat) (document_type : Option DocumentType)
    (notes : Option String) : Except HttpError Document :=
  let clinic_id : Option Nat :=
    if current_user.role = .CLINIC_ADMIN ∨ current_user.role = .CLINIC_STAFF then
      match resolveClinic db current_user.id with
      | none => some 1
      | some clinic => some clinic.id
    else none
  if pyTruthyNat clinic_id = false then
    .error ⟨400, "Cannot determine clinic association"⟩
  else
    match clinic_id with
    | none => .error ⟨400, "Cannot determine clinic association"⟩
    | some cid =>
      let document : Document :=
        { id := db.documents.length + 1
          patient_id := patient_id
          clinic_id := some cid
          filename := saved.unique_filename
          original_filename :=
            if pyTruthyStr upload_filename then upload_filename.getD "" else "unknown"
          file_path := saved.file_path
          file_size := saved.file_size
          mime_type := if pyTruthyStr content_type then content_type.getD "" else "application/octet-stream"
          document_type := document_type.getD .OTHER
          status := .UPLOADED
          notes := notes }
      if pyTruthyNat patient_id then
        match db.patients.find? (fun p =>
            decide (p.id = patient_id.getD 0) && decide (p.clinic_id = some cid)) with
        | none => .error ⟨404, "Patient not found in your clinic"⟩
        | some _ => .ok document
      else .ok document

/-- Inbound HTTP request as seen by the middleware
(`backend/app/middleware/secuirty.py`): method, path, resolved client
address, and the optional `Authorization` header value. -/
structure Request where
  method : String
  path : String
  client_ip : String
  authorization : Option String
  deriving DecidableEq, Repr

/-- HTTP response as seen by the middleware: status code, header map
(association list, later writes shadow earlier ones), and body text. -/
structure HResponse where
  status : Nat
  headers : List (String × String)
  body : String
  deriving DecidableEq, Repr

/-- Header assignment `response.headers[k] = v`: replaces any existing
value for the key. -/
def setHeader (r : HResponse) (k v : String) : HResponse :=
  { r with headers := (k, v) :: r.headers.filter (fun p => p.1 ≠ k) }

/-- Fixed-window rate bucket.  Modelled from the spec: the shared
`rate_limiter` object lives in `backend/app/utils/security.py`, which is
not among the provided sources; spec section 4.3 gives the bucket shape
`(window_start, count)` keyed by client. -/
structure RateBucket where
  window_start : Int
  count : Nat
  deriving DecidableEq, Repr

/-- Bucket table of the rate limiter, keyed by client key. -/
abbrev RateState : Type := List (String × RateBucket)

/-- Store a bucket under a key, replacing any previous bucket. -/
def rateStateSet (st : RateState) (key : String) (b : RateBucket) : RateState :=
  (key, b) :: st.filter (fun kv => kv.1 ≠ key)

/-- Modelled from the spec: `RateLimiter.is_allowed` lives in
`backend/app/utils/security.py`, which is not among the provided sources.
Spec section 4.3: if no bucket exists for the key or the window has
elapsed (`now - window_start >= window_seconds`), start a fresh bucket
with count 1 and admit; otherwise increment the count and admit iff the
new count is at most `max_requests`. -/
def is_allowed (st : RateState) (client_key : String)
    (max_requests window_seconds : Nat) (now : Int) : Bool × RateState :=
  match st.lookup client_key with
  | none => (true, rateStateSet st client_key ⟨now, 1⟩)
  | some b =>
    if (window_seconds : Int) ≤ now - b.window_start then
      (true, rateStateSet st client_key ⟨now, 1⟩)
    else
      (decide (b.count + 1 ≤ max_requests),
        rateStateSet st client_key ⟨b.window_start, b.count + 1⟩)

/-- Python `str.startswith`, modelled over the character sequences of
the two strings. -/
def pathStartsWith (path pre : String) : Bool :=
  pre.data.isPrefixOf path.data

/-- Per-endpoint-class rate tier selection of `SecurityMiddleware.dispatch`
(`backend/app/middleware/secuirty.py` lines 16-26): uploads 10 per hour,
auth endpoints 5 per hour, everything else 1000 per hour. -/
def rateTier (path : String) : Nat × Nat :=
  if pathStartsWith path "/documents/upload" then (10, 3600)
  else if pathStartsWith path "/auth/" then (5, 3600)
  else (1000, 3600)

/-- Security header block of `SecurityMiddleware.dispatch`
(`backend/app/middleware/secuirty.py` lines 39-44), applied in source
order. -/
def addSecurityHeaders (r : HResponse) : HResponse :=
  let r1 := setHeader r "X-Content-Type-Options" "nosniff"
  let r2 := setHeader r1 "X-Frame-Options" "DENY"
  let r3 := setHeader r2 "X-XSS-Protection" "1; mode=block"
  let r4 := setHeader r3 "Strict-Transport-Security" "max-age=31536000; includeSubDomains"
  setHeader r4 "Content-Security-Policy" "default-src \x27self\x27"

/-- `SecurityMiddleware.dispatch` (`backend/app/middleware/secuirty.py`
lines 11-46): select the tier from the path, consult the rate limiter,
return a bare 429 JSON response on rejection, otherwise forward to the
inner handler and attach the security headers to its response. -/
def securityDispatch (st : RateState) (req : Request) (now : Int)
    (call_next : Request → HResponse) : HResponse × RateState :=
  let tier := rateTier req.path
  let res := is_allowed st req.client_ip tier.1 tier.2 now
  if res.1 then (addSecurityHeaders (call_next req), res.2)
  else (⟨429, [("content-type", "application/json")], "Rate limit exceeded"⟩, res.2)

/-- `CSRFMiddleware.dispatch` (`backend/app/middleware/secuirty.py`
lines 52-71): safe methods and auth paths pass through; any other
request passes iff its `Authorization` header is truthy
(`if not auth_header` rejects both a missing header and an empty one). -/
def csrfDispatch (req : Request) (call_next : Request → HResponse) : HResponse :=
  if req.method = "GET" ∨ req.method = "HEAD" ∨ req.method = "OPTIONS" then
    call_next req
  else if pathStartsWith req.path "/auth/" then
    call_next req
  else if pyTruthyStr req.authorization then
    call_next req
  else
    ⟨403, [("content-type", "application/json")],
      "CSRF protection: Authorization header required"⟩

/-- Environment / `.env` assignment consumed by `Settings`
(`backend/app/config.py`): each field optionally provided. -/
structure Env where
  database_url : Option String
  secret_key : Option String
  algorithm : Option String
  access_token_expire_minutes : Option Nat
  deriving DecidableEq, Repr

/-- Validation failure raised while constructing `Settings` (pydantic
raises at startup when a required field has no value). -/
inductive ConfigError where
  | missingField (name : String)
  deriving DecidableEq, Repr

/-- Application settings (`backend/app/config.py`, `class Settings`):
`database_url` and `secret_key` are required with no default;
`algorithm` defaults to HS256 and `access_token_expire_minutes` to 30. -/
structure Settings where
  database_url : String
  secret_key : String
  algorithm : String
  access_token_expire_minutes : Nat
  deriving DecidableEq, Repr

/-- Construction of `Settings` from the environment
(`settings = Settings()` at import time, `backend/app/config.py`):
fails when a required field is absent, applies declared defaults
otherwise. -/
def mkSettings (env : Env) : Except ConfigError Settings :=
  match env.database_url with
  | none => .error (.missingField "database_url")
  | some dbu =>
    match env.secret_key with
    | none => .error (.missingField "secret_key")
    | some sk =>
      .ok { database_url := dbu
            secret_key := sk
            algorithm := env.algorithm.getD "HS256"
            access_token_expire_minutes := env.access_token_expire_minutes.getD 30 }

/-- Deterministic code of a string, used by the modelled hash and
signature functions. -/
def strCode (s : String) : Nat :=
  s.data.foldl (fun a c => a * 256 + c.toNat) 7

/-- Modelled from the spec: `get_password_hash` lives in
`backend/app/utils/auth.py`, which is not among the provided sources;
spec section 4.1 describes a randomized-salt one-way hash, modelled as a
salt paired with a salted code. -/
def get_password_hash (salt : Nat) (plaintext : String) : PasswordDigest :=
  ⟨salt, strCode plaintext + salt⟩

/-- Modelled from the spec: `verify_password` lives in
`backend/app/utils/auth.py`, which is not among the provided sources;
spec section 4.1: true iff the plaintext hashes to the digest under its
embedded salt. -/
def verify_password (plaintext : String) (digest : PasswordDigest) : Bool :=
  decide (digest.code = strCode plaintext + digest.salt)

/-- Token verification failure taxonomy (spec section 4.2). -/
inductive TokenError where
  | TokenMalformed
  | TokenInvalid
  | TokenExpired
  deriving DecidableEq, Repr

/-- Signed bearer token: subject, embedded expiry, and a signature over
both under the process secret key. -/
structure SignedToken where
  sub : String
  exp : Int
  sig : Nat
  deriving DecidableEq, Repr

/-- Signature of a token payload under a key (stands in for the HMAC of
the configured algorithm). -/
def tokenSignature (key sub : String) (exp : Int) : Nat :=
  strCode key * 1000003 + strCode sub * 31 + exp.natAbs

/-- Modelled from the spec: `create_access_token` lives in
`backend/app/utils/auth.py`, which is not among the provided sources;
spec section 4.2: embed the subject and `issue_time + ttl`, sign with
the process secret key.  `expires_delta` is in seconds. -/
def create_access_token (key : String) (sub : String) (expires_delta : Int)
    (now : Int) : SignedToken :=
  ⟨sub, now + expires_delta, tokenSignature key sub (now + expires_delta)⟩

/-- Modelled from the spec: `verify_token` lives in
`backend/app/utils/auth.py`, which is not among the provided sources;
spec section 4.2: `TokenInvalid` when the signature does not match,
`TokenExpired` when the current time exceeds the embedded expiry,
otherwise the embedded subject. -/
def verify_token (key : String) (tok : SignedToken) (now : Int) :
    Except TokenError String :=
  if tok.sig ≠ tokenSignature key tok.sub tok.exp then .error .TokenInvalid
  else if tok.exp < now then .error .TokenExpired
  else .ok tok.sub

/-- Response of `POST /auth/login` (`backend/app/schemas/user.py`,
`Token`). -/
structure TokenResponse where
  access_token : SignedToken
  token_type : String
  expires_in : Nat
  deriving DecidableEq, Repr

/-- `POST /auth/login` handler (`backend/app/routers/auth.py` lines
63-96): look up the user by email, verify the password, reject inactive
accounts, then issue a token for `settings.access_token_expire_minutes`
minutes signed with `settings.secret_key`. -/
def login (db : Db) (s : Settings) (username password : String) (now : Int) :
    Except HttpError TokenResponse :=
  match db.users.find? (fun u => decide (u.email = username)) with
  | none => .error ⟨401, "Incorrect email or password"⟩
  | some user =>
    if verify_password password user.hashed_password = false then
      .error ⟨401, "Incorrect email or password"⟩
    else if user.is_active = false then
      .error ⟨400, "Inactive user"⟩
    else
      .ok { access_token :=
              create_access_token s.secret_key user.email
                ((s.access_token_expire_minutes : Int) * 60) now
            token_type := "bearer"
            expires_in := s.access_token_expire_minutes * 60 }

/-! Helper lemmas about the ordering and pagination combinators. -/

theorem mem_insertByCreatedDesc {a x : AuditLog} {l : List AuditLog} :
    a ∈ insertByCreatedDesc x l ↔ a = x ∨ a ∈ l := by
  induction l with
  | nil => simp [insertByCreatedDesc]
  | cons y ys ih =>
    simp only [insertByCreatedDesc]
    split
    · simp
    · simp only [List.mem_cons, ih]
      tauto

theorem mem_sortByCreatedDesc {a : AuditLog} {l : List AuditLog} :
    a ∈ sortByCreatedDesc l ↔ a ∈ l := by
  induction l with
  | nil => simp [sortByCreatedDesc]
  | cons x xs ih => simp [sortByCreatedDesc, mem_insertByCreatedDesc, ih]

theorem mem_of_mem_paginate {α : Type} {a : α} {l : List α} {page pp : Nat}
    (h : a ∈ paginate l page pp) : a ∈ l :=
  List.mem_of_mem_drop (List.mem_of_mem_take h)

theorem exists_page_mem_aux {α : Type} {pp : Nat} (hpp : 1 ≤ pp) :
    ∀ (n : Nat) (l : List α) (e : α), l.length ≤ n → e ∈ l →
      ∃ page, 1 ≤ page ∧ e ∈ paginate l page pp := by
  intro n
  induction n with
  | zero =>
    intro l e hlen he
    cases l with
    | nil => cases he
    | cons x xs => simp at hlen
  | succ n ih =>
    intro l e hlen he
    by_cases htake : e ∈ l.take pp
    · exact ⟨1, le_refl 1, by simpa [paginate] using htake⟩
    · have hsplit : e ∈ l.take pp ++ l.drop pp := by
        rw [List.take_append_drop]; exact he
      have hdrop : e ∈ l.drop pp := by
        rcases List.mem_append.mp hsplit with h | h
        · exact absurd h htake
        · exact h
      have hlen' : (l.drop pp).length ≤ n := by
        rw [List.length_drop]
        omega
      obtain ⟨page, hp1, hp2⟩ := ih (l.drop pp) e hlen' hdrop
      refine ⟨page + 1, by omega, ?_⟩
      have hdd : (l.drop pp).drop ((page - 1) * pp) = l.drop ((page + 1 - 1) * pp) := by
        rw [List.drop_drop]
        congr 1
        rw [Nat.add_sub_cancel]
        conv_rhs => rw [← Nat.sub_add_cancel hp1]
        rw [Nat.succ_mul]
        exact Nat.add_comm _ _
      unfold paginate at hp2 ⊢
      rw [hdd] at hp2
      exact hp2

theorem exists_page_mem {α : Type} {l : List α} {e : α} {pp : Nat}
    (hpp : 1 ≤ pp) (he : e ∈ l) :
    ∃ page, 1 ≤ page ∧ e ∈ paginate l page pp :=
  exists_page_mem_aux hpp l.length l e (le_refl _) he

theorem auditCallerFilters_noFilters (log : AuditLog) :
    auditCallerFilters noFilters log = true := rfl

theorem filter_noFilters (l : List AuditLog) :
    l.filter (auditCallerFilters noFilters) = l := by
  induction l with
  | nil => rfl
  | cons x xs ih => simp [List.filter, auditCallerFilters_noFilters, ih]

theorem documentsCallerFilters_noDocFilters (d : Document) :
    documentsCallerFilters noDocFilters d = true := rfl

theorem filter_noDocFilters (l : List Document) :
    l.filter (documentsCallerFilters noDocFilters) = l := by
  induction l with
  | nil => rfl
  | cons x xs ih => simp [List.filter, documentsCallerFilters_noDocFilters, ih]

theorem scope_of_mem_logs {db : Db} {u : User} {page pp : Nat}
    {q : AuditLogsQuery} {e : AuditLog}
    (h : e ∈ (get_audit_logs db u page pp q).logs) :
    e ∈ db.audit_logs ∧ auditRoleScope db u e = true ∧ auditCallerFilters q e = true := by
  simp only [get_audit_logs] at h
  have h1 := mem_of_mem_paginate h
  rw [mem_sortByCreatedDesc] at h1
  have h2 := List.mem_filter.mp h1
  have h3 := List.mem_filter.mp h2.1
  exact ⟨h3.1, h3.2, h2.2⟩

theorem mem_logs_of_scope {db : Db} {u : User} {pp : Nat} {e : AuditLog}
    (hpp : 1 ≤ pp) (he : e ∈ db.audit_logs)
    (hs : auditRoleScope db u e = true) :
    ∃ page, 1 ≤ page ∧ e ∈ (get_audit_logs db u page pp noFilters).logs := by
  have hm : e ∈ (db.audit_logs.filter (auditRoleScope db u)).filter
      (auditCallerFilters noFilters) := by
    rw [filter_noFilters]
    exact List.mem_filter.mpr ⟨he, hs⟩
  have hm2 := mem_sortByCreatedDesc.mpr hm
  obtain ⟨page, h1, h2⟩ := exists_page_mem hpp hm2
  exact ⟨page, h1, by simp only [get_audit_logs]; exact h2⟩

/-- C6: for every principal with role ClinicAdmin or ClinicStaff for whom
no clinic row has `admin_user_id` equal to the principal id, every entry
the `/audit/logs` listing returns (any page, any filters) has `user_id`
equal to the principal id: the fallback is fail-closed, not clinic-wide
or unrestricted. -/
theorem audit_no_clinic_fail_closed
    (db : Db) (u : User) (page pp : Nat) (q : AuditLogsQuery) (e : AuditLog)
    (hrole : u.role = .CLINIC_ADMIN ∨ u.role = .CLINIC_STAFF)
    (hclinic : resolveClinic db u.id = none)
    (hmem : e ∈ (get_audit_logs db u page pp q).logs) :
    e.user_id = some u.id := by
  have hs := (scope_of_mem_logs hmem).2.1
  rcases hrole with h | h <;>
    simp only [auditRoleScope, h, hclinic, decide_eq_true_eq] at hs <;>
    exact hs

/-- C5: every entry the `/audit/logs` listing returns under any
caller-supplied filter combination (on any page) is also returned for the
same principal with no filters (on some page): filters intersect with the
role scope and never widen it. -/
theorem audit_filters_only_narrow
    (db : Db) (u : User) (q : AuditLogsQuery) (page pp : Nat) (e : AuditLog)
    (hpp : 1 ≤ pp)
    (hmem : e ∈ (get_audit_logs db u page pp q).logs) :
    ∃ page2, 1 ≤ page2 ∧ e ∈ (get_audit_logs db u page2 pp noFilters).logs := by
  obtain ⟨he, hs, _⟩ := scope_of_mem_logs hmem
  exact mem_logs_of_scope hpp he hs

/-- C1 (amended): role-scoped audit visibility of `/audit/logs`.  An
entry with `clinic_id = 7` is returned (on some page, no filters) to a
ClinicAdmin whose resolved clinic has id 7; it is never returned to a
ClinicAdmin whose resolved clinic has id 9; a Patient principal receives
only entries whose `user_id` equals the principal id and whose
`entity_type` is USER or DOCUMENT (so an entry with `clinic_id = 7` is
invisible to a Patient except when it records that patient acting on an
allow-listed entity); `UserRole` is a closed enumeration of exactly
Admin, ClinicAdmin, ClinicStaff and Patient, so the 403 branch for any
other role is unreachable. -/
theorem audit_role_scoped_visibility :
    (∀ (db : Db) (u : User) (c : Clinic) (e : AuditLog) (pp : Nat),
      u.role = .CLINIC_ADMIN → resolveClinic db u.id = some c → c.id = 7 →
      e ∈ db.audit_logs → e.clinic_id = some 7 → 1 ≤ pp →
      ∃ page, 1 ≤ page ∧ e ∈ (get_audit_logs db u page pp noFilters).logs) ∧
    (∀ (db : Db) (u : User) (c : Clinic) (e : AuditLog) (page pp : Nat)
      (q : AuditLogsQuery),
      u.role = .CLINIC_ADMIN → resolveClinic db u.id = some c → c.id = 9 →
      e.clinic_id = some 7 →
      e ∉ (get_audit_logs db u page pp q).logs) ∧
    (∀ (db : Db) (u : User) (e : AuditLog) (page pp : Nat) (q : AuditLogsQuery),
      u.role = .PATIENT →
      e ∈ (get_audit_logs db u page pp q).logs →
      e.user_id = some u.id ∧ (e.entity_type = .USER ∨ e.entity_type = .DOCUMENT)) ∧
    (∀ r : UserRole,
      r = .ADMIN ∨ r = .CLINIC_ADMIN ∨ r = .CLINIC_STAFF ∨ r = .PATIENT) := by
  refine ⟨?_, ?_, ?_, ?_⟩
  · intro db u c e pp hrole hres hc7 he hclin hpp
    apply mem_logs_of_scope hpp he
    simp only [auditRoleScope, hrole, hres, hclin, hc7, decide_eq_true_eq]
  · intro db u c e page pp q hrole hres hc9 hclin hmem
    have hs := (scope_of_mem_logs hmem).2.1
    simp only [auditRoleScope, hrole, hres, hclin, hc9, decide_eq_true_eq] at hs
    exact Option.noConfusion hs (fun h => by omega)
  · intro db u e page pp q hrole hmem
    have hs := (scope_of_mem_logs hmem).2.1
    simp only [auditRoleScope, hrole, Bool.and_eq_true, Bool.or_eq_true,
      decide_eq_true_eq] at hs
    exact hs
  · intro r
    cases r
    · exact Or.inl rfl
    · exact Or.inr (Or.inl rfl)
    · exact Or.inr (Or.inr (Or.inl rfl))
    · exact Or.inr (Or.inr (Or.inr rfl))

/-- Clinic fixture: clinic 7 administered by user 10. -/
def clinicA : Clinic := ⟨7, "A", "L7", some 10, true⟩

/-- Clinic fixture: clinic 9 administered by user 11. -/
def clinicB : Clinic := ⟨9, "B", "L9", some 11, true⟩

/-- ClinicAdmin fixture administering clinic 7. -/
def adminA : User := ⟨10, "a@x", ⟨1, 1⟩, .CLINIC_ADMIN, true⟩

/-- ClinicAdmin fixture administering clinic 9. -/
def adminB : User := ⟨11, "b@x", ⟨1, 1⟩, .CLINIC_ADMIN, true⟩

/-- Patient-role user fixture with id 5. -/
def patientUser : User := ⟨5, "p@x", ⟨1, 1⟩, .PATIENT, true⟩

/-- Audit entry fixture: user 5 downloaded a document at clinic 7. -/
def entry7 : AuditLog :=
  ⟨1, some 5, none, none, .DOWNLOAD, .DOCUMENT, none, some 7, none, "", true, 3⟩

/-- Store fixture holding clinics 7 and 9 and the clinic-7 entry. -/
def dbAudit : Db := ⟨[adminA, adminB, patientUser], [clinicA, clinicB], [], [], [entry7], []⟩

/-- C1 (counterexample): the claim that an entry with `clinic_id = 7` is
not returned to any Patient principal fails on the code: `entry7` has
`clinic_id = 7`, `patientUser` has role Patient, and the unfiltered
listing for `patientUser` returns `entry7` (it records user 5 acting on
an allow-listed DOCUMENT entity). -/
theorem audit_patient_sees_clinic7_entry :
    patientUser.role = .PATIENT ∧ entry7.clinic_id = some 7 ∧
    entry7 ∈ (get_audit_logs dbAudit patientUser 1 20 noFilters).logs := by
  decide

/-- C1 (witness): the amended theorem instantiated on the fixture store:
clinic-7 admin sees the clinic-7 entry, clinic-9 admin does not, and the
patient listing yields only own-actor allow-listed entries. -/
theorem audit_role_scoped_visibility_inst :
    (∃ page, 1 ≤ page ∧
      entry7 ∈ (get_audit_logs dbAudit adminA page 20 noFilters).logs) ∧
    entry7 ∉ (get_audit_logs dbAudit adminB 1 20 noFilters).logs ∧
    (entry7.user_id = some patientUser.id ∧
      (entry7.entity_type = .USER ∨ entry7.entity_type = .DOCUMENT)) :=
  ⟨audit_role_scoped_visibility.1 dbAudit adminA clinicA entry7 20 rfl (by decide)
      rfl (by decide) rfl (by decide),
    audit_role_scoped_visibility.2.1 dbAudit adminB clinicB entry7 1 20 noFilters
      rfl (by decide) rfl rfl,
    audit_role_scoped_visibility.2.2.1 dbAudit patientUser entry7 1 20 noFilters
      rfl (by decide)⟩

/-- ClinicStaff fixture with no clinic row resolving to it. -/
def orphanStaff : User := ⟨12, "s@x", ⟨1, 1⟩, .CLINIC_STAFF, true⟩

/-- Audit entry fixture: own action of user 12 with no clinic. -/
def entryOwn : AuditLog :=
  ⟨2, some 12, none, none, .VIEW, .USER, none, none, none, "", true, 5⟩

/-- Store fixture for the fail-closed fallback: no clinic resolves to
user 12, and the store holds the clinic-7 entry and an own entry of
user 12. -/
def dbOrphan : Db := ⟨[orphanStaff], [clinicA, clinicB], [], [], [entry7, entryOwn], []⟩

/-- C6 (witness): on the fixture store the orphan ClinicStaff listing
returns `entryOwn`, and the theorem instantiated there yields its
`user_id = some 12`. -/
theorem audit_no_clinic_fail_closed_inst :
    entryOwn.user_id = some orphanStaff.id :=
  audit_no_clinic_fail_closed dbOrphan orphanStaff 1 20 noFilters entryOwn
    (Or.inr rfl) (by decide) (by decide)

/-- Filter fixture: restrict to VIEW actions. -/
def viewFilter : AuditLogsQuery :=
  ⟨some .VIEW, none, none, none, none, none, none, none⟩

/-- C5 (witness): on the fixture store, `entryOwn` is returned for the
orphan staff principal under the VIEW action filter, and the theorem
instantiated there returns it on some unfiltered page. -/
theorem audit_filters_only_narrow_inst :
    ∃ page2, 1 ≤ page2 ∧
      entryOwn ∈ (get_audit_logs dbOrphan orphanStaff page2 20 noFilters).logs :=
  audit_filters_only_narrow dbOrphan orphanStaff viewFilter 1 20 entryOwn
    (by decide) (by decide)

/-- C9: for a ClinicAdmin or ClinicStaff principal with no resolvable
clinic, the document read endpoints skip the clinic-scope check:
`get_document` and `download_document` return any existing document
regardless of its `clinic_id`, and the listing scope is unrestricted, so
every stored document appears on some unfiltered page — the opposite of
the fail-closed restriction of the audit listing. -/
theorem documents_fail_open_no_clinic
    (db : Db) (u : User)
    (hrole : u.role = .CLINIC_ADMIN ∨ u.role = .CLINIC_STAFF)
    (hclinic : resolveClinic db u.id = none) :
    (∀ doc_id doc,
      db.documents.find? (fun d => decide (d.id = doc_id)) = some doc →
      get_document db u doc_id = .ok doc) ∧
    (∀ doc_id doc,
      db.documents.find? (fun d => decide (d.id = doc_id)) = some doc →
      doc.file_path ∈ db.files →
      download_document db u doc_id =
        .ok ⟨doc.file_path, doc.original_filename, doc.mime_type⟩) ∧
    documentsRoleScope db u = .ok (fun _ => true) ∧
    (∀ d pp, d ∈ db.documents → 1 ≤ pp →
      ∃ page r, 1 ≤ page ∧ get_documents db u page pp noDocFilters = .ok r ∧
        d ∈ r.documents) := by
  have hscope : documentsRoleScope db u = .ok (fun _ => true) := by
    rcases hrole with h | h <;> simp only [documentsRoleScope, h, hclinic]
  refine ⟨?_, ?_, hscope, ?_⟩
  · intro doc_id doc hfind
    rcases hrole with h | h <;>
      simp only [get_document, hfind, h, hclinic]
  · intro doc_id doc hfind hfile
    rcases hrole with h | h <;>
      simp only [download_document, hfind, h, hclinic, if_pos hfile]
  · intro d pp hd hpp
    have hmem : d ∈ (db.documents.filter (fun _ => true)).filter
        (documentsCallerFilters noDocFilters) := by
      rw [filter_noDocFilters]
      exact List.mem_filter.mpr ⟨hd, rfl⟩
    obtain ⟨page, h1, h2⟩ := exists_page_mem hpp hmem
    refine ⟨page,
      { documents := paginate ((db.documents.filter (fun _ => true)).filter
          (documentsCallerFilters noDocFilters)) page pp
        total := ((db.documents.filter (fun _ => true)).filter
          (documentsCallerFilters noDocFilters)).length
        page := page
        per_page := pp }, h1, ?_, h2⟩
    simp only [get_documents, hscope]

/-- Document fixture stored under clinic 2. -/
def docClinic2 : Document :=
  ⟨1, none, some 2, "f.pdf", "orig.pdf", "uploads/documents/f.pdf", 10,
    "application/pdf", .LAB_REPORT, .UPLOADED, none⟩

/-- Store fixture for the fail-open document access: user 12 resolves to
no clinic; the only document belongs to clinic 2 and its file exists. -/
def dbDocs : Db :=
  ⟨[orphanStaff], [clinicA, clinicB], [], [docClinic2], [],
    ["uploads/documents/f.pdf"]⟩

/-- C9 (witness): instantiated on the fixture store, the orphan
ClinicStaff reads, downloads and lists the clinic-2 document. -/
theorem documents_fail_open_no_clinic_inst :
    get_document dbDocs orphanStaff 1 = .ok docClinic2 ∧
    download_document dbDocs orphanStaff 1 =
      .ok ⟨docClinic2.file_path, docClinic2.original_filename, docClinic2.mime_type⟩ ∧
    (∃ page r, 1 ≤ page ∧
      get_documents dbDocs orphanStaff page 20 noDocFilters = .ok r ∧
      docClinic2 ∈ r.documents) := by
  have h := documents_fail_open_no_clinic dbDocs orphanStaff (Or.inr rfl) (by decide)
  exact ⟨h.1 1 docClinic2 (by decide),
    h.2.1 1 docClinic2 (by decide) (by decide),
    h.2.2.2 docClinic2 20 (by decide) (by decide)⟩

/-- C7: for a document upload by a ClinicAdmin or ClinicStaff principal
whose clinic cannot be resolved, the handler does not fail at clinic
resolution: it proceeds with the hardcoded `clinic_id = 1`, so every
document it creates is attributed to clinic 1, and with no patient
assignment the upload succeeds outright. -/
theorem upload_hardcoded_clinic_fallback
    (db : Db) (u : User) (saved : UploadSaved) (fn ct : Option String)
    (pid : Option Nat) (dt : Option DocumentType) (nts : Option String)
    (hrole : u.role = .CLINIC_ADMIN ∨ u.role = .CLINIC_STAFF)
    (hclinic : resolveClinic db u.id = none) :
    (∀ d, upload_document db u saved fn ct pid dt nts = .ok d →
      d.clinic_id = some 1) ∧
    (pid = none →
      ∃ d, upload_document db u saved fn ct pid dt nts = .ok d ∧
        d.clinic_id = some 1) := by
  constructor
  · intro d hok
    simp only [upload_document, if_pos hrole, hclinic,
      show pyTruthyNat (some 1) = true from rfl,
      if_neg (show ¬(true = false) by decide)] at hok
    by_cases hp : pyTruthyNat pid = true
    · rw [if_pos hp] at hok
      cases hfind : List.find? (fun p =>
          decide (p.id = pid.getD 0) && decide (p.clinic_id = some 1)) db.patients with
      | none =>
        rw [hfind] at hok
        exact Except.noConfusion hok
      | some p =>
        rw [hfind] at hok
        cases hok
        rfl
    · rw [if_neg hp] at hok
      cases hok
      rfl
  · intro hpid
    subst hpid
    simp only [upload_document, if_pos hrole, hclinic,
      show pyTruthyNat (some 1) = true from rfl,
      if_neg (show ¬(true = false) by decide),
      if_neg (show ¬(pyTruthyNat none = true) by decide)]
    exact ⟨_, rfl, rfl⟩

/-- C7 (witness): instantiated upload by the orphan ClinicStaff with no
patient assignment: it succeeds and the created document carries
`clinic_id = 1`. -/
theorem upload_hardcoded_clinic_fallback_inst :
    ∃ d, upload_document dbDocs orphanStaff ⟨"uploads/documents/g.pdf", "g.pdf", 5⟩
        (some "g.pdf") (some "application/pdf") none none none = .ok d ∧
      d.clinic_id = some 1 :=
  (upload_hardcoded_clinic_fallback dbDocs orphanStaff
      ⟨"uploads/documents/g.pdf", "g.pdf", 5⟩ (some "g.pdf")
      (some "application/pdf") none none none (Or.inr rfl) (by decide)).2 rfl

/-! Helper lemmas about the rate limiter state table. -/

theorem is_allowed_no_bucket (st : RateState) (key : String) (m w : Nat) (now : Int)
    (h : st.lookup key = none) :
    is_allowed st key m w now = (true, rateStateSet st key ⟨now, 1⟩) := by
  simp [is_allowed, h]

theorem is_allowed_in_window (st : RateState) (key : String) (b : RateBucket)
    (m w : Nat) (now : Int) (h : st.lookup key = some b)
    (hw : now - b.window_start < (w : Int)) :
    is_allowed st key m w now =
      (decide (b.count + 1 ≤ m), rateStateSet st key ⟨b.window_start, b.count + 1⟩) := by
  simp only [is_allowed, h]
  rw [if_neg (not_le.mpr hw)]

theorem is_allowed_elapsed (st : RateState) (key : String) (b : RateBucket)
    (m w : Nat) (now : Int) (h : st.lookup key = some b)
    (hw : (w : Int) ≤ now - b.window_start) :
    is_allowed st key m w now = (true, rateStateSet st key ⟨now, 1⟩) := by
  simp only [is_allowed, h]
  rw [if_pos hw]

theorem lookup_single (key : String) (b : RateBucket) :
    List.lookup key [(key, b)] = some b := by
  simp [List.lookup]

theorem is_allowed_single_fresh (key : String) (m w : Nat) (t : Int) :
    is_allowed [] key m w t = (true, [(key, ⟨t, 1⟩)]) := by
  rw [is_allowed_no_bucket [] key m w t rfl]
  rfl

theorem is_allowed_single_step (key : String) (b : RateBucket) (m w : Nat) (now : Int)
    (hw : now - b.window_start < (w : Int)) :
    is_allowed [(key, b)] key m w now =
      (decide (b.count + 1 ≤ m), [(key, ⟨b.window_start, b.count + 1⟩)]) := by
  rw [is_allowed_in_window [(key, b)] key b m w now (lookup_single key b) hw]
  simp [rateStateSet, List.filter]

theorem is_allowed_single_elapsed (key : String) (b : RateBucket) (m w : Nat) (now : Int)
    (hw : (w : Int) ≤ now - b.window_start) :
    is_allowed [(key, b)] key m w now = (true, [(key, ⟨now, 1⟩)]) := by
  rw [is_allowed_elapsed [(key, b)] key b m w now (lookup_single key b) hw]
  simp [rateStateSet, List.filter]

/-- Admission decisions of successive limiter calls at the given times. -/
def rateCallSeq (key : String) (m w : Nat) : List Int → RateState → List Bool
  | [], _ => []
  | t :: ts, st =>
    (is_allowed st key m w t).1 :: rateCallSeq key m w ts (is_allowed st key m w t).2

/-- Limiter state after successive calls at the given times. -/
def rateRun (key : String) (m w : Nat) : List Int → RateState → RateState
  | [], st => st
  | t :: ts, st => rateRun key m w ts (is_allowed st key m w t).2

/-- C3: fixed-window limiting at `max_requests = 5`,
`window_seconds = 3600`.  For every client key, six calls at the same
instant from an empty table are admitted, admitted, admitted, admitted,
admitted, rejected; a seventh call one window later is admitted and
leaves a fresh bucket with count 1; in general a call within the window
is admitted iff the incremented count stays at or below the limit (so
the call that reaches the limit is admitted, the next one rejected), a
call after the window elapsed starts a fresh bucket with count 1 and is
admitted, and a rejected request receives the bare 429 response from the
security middleware. -/
theorem rate_limit_fixed_window :
    (∀ (key : String) (t : Int),
      rateCallSeq key 5 3600 [t, t, t, t, t, t] [] =
        [true, true, true, true, true, false]) ∧
    (∀ (key : String) (t : Int),
      rateCallSeq key 5 3600 [t, t, t, t, t, t, t + 3600] [] =
        [true, true, true, true, true, false, true] ∧
      rateRun key 5 3600 [t, t, t, t, t, t, t + 3600] [] = [(key, ⟨t + 3600, 1⟩)]) ∧
    (∀ (st : RateState) (key : String) (b : RateBucket) (m w : Nat) (now : Int),
      st.lookup key = some b → now - b.window_start < (w : Int) →
      ((is_allowed st key m w now).1 = true ↔ b.count + 1 ≤ m)) ∧
    (∀ (st : RateState) (key : String) (b : RateBucket) (m w : Nat) (now : Int),
      st.lookup key = some b → (w : Int) ≤ now - b.window_start →
      is_allowed st key m w now = (true, rateStateSet st key ⟨now, 1⟩)) ∧
    (∀ (st : RateState) (req : Request) (now : Int)
      (call_next : Request → HResponse),
      (is_allowed st req.client_ip (rateTier req.path).1 (rateTier req.path).2 now).1
          = false →
      (securityDispatch st req now call_next).1 =
        ⟨429, [("content-type", "application/json")], "Rate limit exceeded"⟩) := by
  have hstep : ∀ (key : String) (t : Int) (k : Nat),
      is_allowed [(key, ⟨t, k⟩)] key 5 3600 t =
        (decide (k + 1 ≤ 5), [(key, ⟨t, k + 1⟩)]) := by
    intro key t k
    exact is_allowed_single_step key ⟨t, k⟩ 5 3600 t
      (by show t - t < ((3600 : Nat) : Int); omega)
  refine ⟨?_, ?_, ?_, ?_, ?_⟩
  · intro key t
    simp only [rateCallSeq, is_allowed_single_fresh key 5 3600 t, hstep key t]
    decide
  · intro key t
    constructor
    · simp only [rateCallSeq, is_allowed_single_fresh key 5 3600 t, hstep key t,
        is_allowed_single_elapsed key ⟨t, 6⟩ 5 3600 (t + 3600)
          (by show ((3600 : Nat) : Int) ≤ t + 3600 - t; omega)]
      decide
    · simp only [rateRun, is_allowed_single_fresh key 5 3600 t, hstep key t,
        is_allowed_single_elapsed key ⟨t, 6⟩ 5 3600 (t + 3600)
          (by show ((3600 : Nat) : Int) ≤ t + 3600 - t; omega)]
  · intro st key b m w now h hw
    rw [is_allowed_in_window st key b m w now h hw]
    simp
  · intro st key b m w now h hw
    exact is_allowed_elapsed st key b m w now h hw
  · intro st req now call_next h
    simp only [securityDispatch]
    rw [if_neg (by simp [h])]

/-- C3 (witness): the general conjuncts instantiated at a concrete
bucket table: a bucket of count 4 admits its fifth call, a bucket of
count 5 rejects the sixth, an expired bucket is replaced by a fresh
count-1 bucket, and the rejected request gets the bare 429 response. -/
theorem rate_limit_fixed_window_inst :
    ((is_allowed [("1.2.3.4", ⟨0, 4⟩)] "1.2.3.4" 5 3600 10).1 = true ↔ 4 + 1 ≤ 5) ∧
    ((is_allowed [("1.2.3.4", ⟨0, 5⟩)] "1.2.3.4" 5 3600 10).1 = true ↔ 5 + 1 ≤ 5) ∧
    is_allowed [("1.2.3.4", ⟨0, 5⟩)] "1.2.3.4" 5 3600 3600 =
      (true, rateStateSet [("1.2.3.4", ⟨0, 5⟩)] "1.2.3.4" ⟨3600, 1⟩) ∧
    (securityDispatch [("1.2.3.4", ⟨0, 1000⟩)] ⟨"GET", "/health", "1.2.3.4", none⟩ 10
        (fun _ => ⟨200, [], "ok"⟩)).1 =
      ⟨429, [("content-type", "application/json")], "Rate limit exceeded"⟩ :=
  ⟨rate_limit_fixed_window.2.2.1 [("1.2.3.4", ⟨0, 4⟩)] "1.2.3.4" ⟨0, 4⟩ 5 3600 10
      (by decide) (by decide),
    rate_limit_fixed_window.2.2.1 [("1.2.3.4", ⟨0, 5⟩)] "1.2.3.4" ⟨0, 5⟩ 5 3600 10
      (by decide) (by decide),
    rate_limit_fixed_window.2.2.2.1 [("1.2.3.4", ⟨0, 5⟩)] "1.2.3.4" ⟨0, 5⟩ 5 3600 3600
      (by decide) (by decide),
    rate_limit_fixed_window.2.2.2.2 [("1.2.3.4", ⟨0, 1000⟩)]
      ⟨"GET", "/health", "1.2.3.4", none⟩ 10 (fun _ => ⟨200, [], "ok"⟩) (by decide)⟩

/-- C2: CSRF enforcement of `CSRFMiddleware.dispatch`.  For a request
whose method is none of GET, HEAD, OPTIONS and whose path is outside the
`/auth/` prefix: with no `Authorization` header the dispatcher returns
the fixed 403 response without invoking the inner handler; with a
non-empty `Authorization` value — regardless of whether it later
verifies — the CSRF stage passes and the request reaches the inner
pipeline (the source treats an empty header value as absent, by Python
truthiness). -/
theorem csrf_enforcement
    (req : Request) (hm1 : req.method ≠ "GET") (hm2 : req.method ≠ "HEAD")
    (hm3 : req.method ≠ "OPTIONS")
    (hpath : pathStartsWith req.path "/auth/" = false) :
    (req.authorization = none →
      ∀ call_next, csrfDispatch req call_next =
        ⟨403, [("content-type", "application/json")],
          "CSRF protection: Authorization header required"⟩) ∧
    (∀ s, s ≠ "" → req.authorization = some s →
      ∀ call_next, csrfDispatch req call_next = call_next req) := by
  have hcond : ¬(req.method = "GET" ∨ req.method = "HEAD" ∨ req.method = "OPTIONS") := by
    tauto
  have hpath2 : ¬(pathStartsWith req.path "/auth/" = true) := by
    rw [hpath]
    decide
  constructor
  · intro hauth call_next
    simp only [csrfDispatch, if_neg hcond, if_neg hpath2]
    rw [if_neg (by simp [hauth, pyTruthyStr])]
  · intro s hs hauth call_next
    simp only [csrfDispatch, if_neg hcond, if_neg hpath2]
    rw [if_pos (by simp [hauth, pyTruthyStr, hs])]

/-- C2 (witness): a POST to a non-auth path with no header is rejected
with the fixed 403 response; the same request with a (later invalid)
bearer value reaches the inner handler. -/
theorem csrf_enforcement_inst :
    csrfDispatch ⟨"POST", "/documents/upload", "1.2.3.4", none⟩
        (fun _ => ⟨200, [], "ok"⟩) =
      ⟨403, [("content-type", "application/json")],
        "CSRF protection: Authorization header required"⟩ ∧
    csrfDispatch ⟨"POST", "/documents/upload", "1.2.3.4", some "Bearer bad"⟩
        (fun _ => ⟨200, [], "ok"⟩) = ⟨200, [], "ok"⟩ :=
  ⟨(csrf_enforcement ⟨"POST", "/documents/upload", "1.2.3.4", none⟩
      (by decide) (by decide) (by decide) (by decide)).1 rfl _,
    (csrf_enforcement ⟨"POST", "/documents/upload", "1.2.3.4", some "Bearer bad"⟩
      (by decide) (by decide) (by decide) (by decide)).2 "Bearer bad"
      (by decide) rfl _⟩

theorem addSecurityHeaders_lookups (r : HResponse) :
    (addSecurityHeaders r).headers.lookup "X-Content-Type-Options" = some "nosniff" ∧
    (addSecurityHeaders r).headers.lookup "X-Frame-Options" = some "DENY" ∧
    (addSecurityHeaders r).headers.lookup "X-XSS-Protection" = some "1; mode=block" ∧
    (addSecurityHeaders r).headers.lookup "Strict-Transport-Security" =
      some "max-age=31536000; includeSubDomains" ∧
    (addSecurityHeaders r).headers.lookup "Content-Security-Policy" =
      some "default-src \x27self\x27" := by
  refine ⟨?_, ?_, ?_, ?_, ?_⟩ <;>
    simp [addSecurityHeaders, setHeader, List.lookup, List.filter]

/-- C4 (amended): every response the security middleware forwards from
the inner handler (that is, every request the rate limiter admits)
carries the five fixed defensive headers with their source values; a
rate-limited request instead receives the bare 429 response, which
carries none of them, so the unconditional form of the claim fails. -/
theorem security_headers_on_forwarded
    (st : RateState) (req : Request) (now : Int)
    (call_next : Request → HResponse)
    (h : (is_allowed st req.client_ip (rateTier req.path).1 (rateTier req.path).2 now).1
        = true) :
    ((securityDispatch st req now call_next).1.headers.lookup "X-Content-Type-Options"
        = some "nosniff") ∧
    ((securityDispatch st req now call_next).1.headers.lookup "X-Frame-Options"
        = some "DENY") ∧
    ((securityDispatch st req now call_next).1.headers.lookup "X-XSS-Protection"
        = some "1; mode=block") ∧
    ((securityDispatch st req now call_next).1.headers.lookup "Strict-Transport-Security"
        = some "max-age=31536000; includeSubDomains") ∧
    ((securityDispatch st req now call_next).1.headers.lookup "Content-Security-Policy"
        = some "default-src \x27self\x27") := by
  have hdisp : (securityDispatch st req now call_next).1 =
      addSecurityHeaders (call_next req) := by
    simp only [securityDispatch]
    rw [if_pos h]
  rw [hdisp]
  exact addSecurityHeaders_lookups (call_next req)

/-- C4 (witness): a request admitted by the limiter receives a response
carrying all five defensive headers. -/
theorem security_headers_on_forwarded_inst :
    ((securityDispatch [] ⟨"GET", "/health", "1.2.3.4", none⟩ 0
        (fun _ => ⟨200, [], "ok"⟩)).1.headers.lookup "X-Content-Type-Options"
      = some "nosniff") ∧
    ((securityDispatch [] ⟨"GET", "/health", "1.2.3.4", none⟩ 0
        (fun _ => ⟨200, [], "ok"⟩)).1.headers.lookup "Content-Security-Policy"
      = some "default-src \x27self\x27") := by
  have h := security_headers_on_forwarded [] ⟨"GET", "/health", "1.2.3.4", none⟩ 0
    (fun _ => ⟨200, [], "ok"⟩) (by decide)
  exact ⟨h.1, h.2.2.2.2⟩

/-- C4 (counterexample): the claim that every response carries the five
headers fails at a concrete rate-limited request: with the bucket for
the client already at the general-tier limit of 1000, the middleware
returns a 429 response whose header map contains no
`X-Content-Type-Options` (nor any of the other four). -/
theorem security_headers_missing_on_429 :
    (securityDispatch [("1.2.3.4", ⟨0, 1000⟩)] ⟨"GET", "/health", "1.2.3.4", none⟩ 0
        (fun _ => ⟨200, [], "ok"⟩)).1.status = 429 ∧
    (securityDispatch [("1.2.3.4", ⟨0, 1000⟩)] ⟨"GET", "/health", "1.2.3.4", none⟩ 0
        (fun _ => ⟨200, [], "ok"⟩)).1.headers.lookup "X-Content-Type-Options" = none := by
  decide

theorem verify_create_access_token (key sub : String) (delta now : Int)
    (h : 0 ≤ delta) :
    verify_token key (create_access_token key sub delta now) now = .ok sub := by
  simp only [verify_token, create_access_token]
  rw [if_neg (by simp)]
  rw [if_neg (by omega)]

/-- C8: token round-trip and expiry.  For every subject and every
`ttl > 0`, verifying immediately after issuance yields the subject,
verifying at `t + ttl + 1` a token issued at `t` fails with
TokenExpired, and the default expiry window of the settings is 30
minutes (`access_token_expire_minutes` defaults to 30, which the login
handler converts to seconds). -/
theorem token_roundtrip_and_expiry :
    (∀ (key sub : String) (ttl now : Int), 0 < ttl →
      verify_token key (create_access_token key sub ttl now) now = .ok sub ∧
      verify_token key (create_access_token key sub ttl now) (now + ttl + 1) =
        .error .TokenExpired) ∧
    (∀ (env : Env) (s : Settings), env.access_token_expire_minutes = none →
      mkSettings env = .ok s → s.access_token_expire_minutes = 30) ∧
    (∀ (db : Db) (s : Settings) (username password : String) (now : Int)
      (tr : TokenResponse),
      login db s username password now = .ok tr →
      tr.expires_in = s.access_token_expire_minutes * 60) := by
  refine ⟨?_, ?_, ?_⟩
  · intro key sub ttl now h
    constructor
    · exact verify_create_access_token key sub ttl now (by omega)
    · simp only [verify_token, create_access_token]
      rw [if_neg (by simp)]
      rw [if_pos (by omega)]
  · intro env s hnone hok
    cases hdb : env.database_url with
    | none =>
      rw [mkSettings, hdb] at hok
      exact Except.noConfusion hok
    | some dbu =>
      cases hsk : env.secret_key with
      | none =>
        rw [mkSettings, hdb, hsk] at hok
        exact Except.noConfusion hok
      | some sk =>
        rw [mkSettings, hdb, hsk] at hok
        cases hok
        simp [hnone]
  · intro db s username password now tr hok
    rw [login] at hok
    cases hfind : db.users.find? (fun u => decide (u.email = username)) with
    | none =>
      simp only [hfind] at hok
      exact Except.noConfusion hok
    | some user =>
      simp only [hfind] at hok
      by_cases hpw : verify_password password user.hashed_password = false
      · rw [if_pos hpw] at hok
        exact Except.noConfusion hok
      · rw [if_neg hpw] at hok
        by_cases hact : user.is_active = false
        · rw [if_pos hact] at hok
          exact Except.noConfusion hok
        · rw [if_neg hact] at hok
          cases hok
          rfl

/-- C8 (witness): round-trip and expiry at a concrete key, subject and
ttl, plus the defaulted settings instance carrying 30 minutes. -/
theorem token_roundtrip_and_expiry_inst :
    verify_token "k" (create_access_token "k" "alice" 60 100) 100 = .ok "alice" ∧
    verify_token "k" (create_access_token "k" "alice" 60 100) 161 =
      .error .TokenExpired ∧
    (∀ s, mkSettings ⟨some "sqlite://", some "k", none, none⟩ = .ok s →
      s.access_token_expire_minutes = 30) :=
  ⟨(token_roundtrip_and_expiry.1 "k" "alice" 60 100 (by decide)).1,
    (token_roundtrip_and_expiry.1 "k" "alice" 60 100 (by decide)).2,
    fun s h =>
      token_roundtrip_and_expiry.2.1 ⟨some "sqlite://", some "k", none, none⟩ s rfl h⟩

/-- C10: fail-fast on a missing signing key.  Constructing the settings
with no `secret_key` fails with a configuration error; with a
`secret_key` (and the other required field) present, construction
succeeds, carries that key, and any token the login handler issues under
those settings verifies under that same key. -/
theorem settings_fail_fast_missing_key :
    (∀ env : Env, env.secret_key = none → ∃ e, mkSettings env = .error e) ∧
    (∀ (env : Env) (k dbu : String), env.secret_key = some k →
      env.database_url = some dbu →
      ∃ s, mkSettings env = .ok s ∧ s.secret_key = k) ∧
    (∀ (env : Env) (k : String) (s : Settings) (db : Db)
      (username password : String) (now : Int) (tr : TokenResponse),
      env.secret_key = some k → mkSettings env = .ok s →
      login db s username password now = .ok tr →
      verify_token k tr.access_token now = .ok tr.access_token.sub) := by
  refine ⟨?_, ?_, ?_⟩
  · intro env hnone
    cases hdb : env.database_url with
    | none => exact ⟨_, by rw [mkSettings, hdb]⟩
    | some dbu => exact ⟨_, by rw [mkSettings, hdb, hnone]⟩
  · intro env k dbu hsk hdb
    exact ⟨_, by rw [mkSettings, hdb, hsk], rfl⟩
  · intro env k s db username password now tr hsk hok hlogin
    have hkey : s.secret_key = k := by
      cases hdb : env.database_url with
      | none =>
        rw [mkSettings, hdb] at hok
        exact Except.noConfusion hok
      | some dbu =>
        rw [mkSettings, hdb, hsk] at hok
        cases hok
        rfl
    rw [login] at hlogin
    cases hfind : db.users.find? (fun u => decide (u.email = username)) with
    | none =>
      simp only [hfind] at hlogin
      exact Except.noConfusion hlogin
    | some user =>
      simp only [hfind] at hlogin
      by_cases hpw : verify_password password user.hashed_password = false
      · rw [if_pos hpw] at hlogin
        exact Except.noConfusion hlogin
      · rw [if_neg hpw] at hlogin
        by_cases hact : user.is_active = false
        · rw [if_pos hact] at hlogin
          exact Except.noConfusion hlogin
        · rw [if_neg hact] at hlogin
          cases hlogin
          rw [hkey]
          exact verify_create_access_token k user.email _ now (by positivity)

/-- C10 (witness): the settings fail on an environment with no secret
key, succeed carrying the provided key, and a concrete login — whose
stored digest verifies the supplied password, so it actually returns a
token — issues a token that verifies under that key. -/
theorem settings_fail_fast_missing_key_inst :
    (∃ e, mkSettings ⟨some "sqlite://", none, none, none⟩ = .error e) ∧
    (∃ s, mkSettings ⟨some "sqlite://", some "k", none, none⟩ = .ok s ∧
      s.secret_key = "k") ∧
    (∃ tr,
      login ⟨[⟨1, "a@x", get_password_hash 1 "pw", .ADMIN, true⟩], [], [], [], [], []⟩
        ⟨"sqlite://", "k", "HS256", 30⟩ "a@x" "pw" 0 = .ok tr ∧
      verify_token "k" tr.access_token 0 = .ok tr.access_token.sub) :=
  ⟨settings_fail_fast_missing_key.1 ⟨some "sqlite://", none, none, none⟩ rfl,
    settings_fail_fast_missing_key.2.1 ⟨some "sqlite://", some "k", none, none⟩
      "k" "sqlite://" rfl rfl,
    ⟨⟨create_access_token "k" "a@x" (((30 : Nat) : Int) * 60) 0, "bearer", 30 * 60⟩,
      by decide,
      settings_fail_fast_missing_key.2.2 ⟨some "sqlite://", some "k", none, none⟩
        "k" ⟨"sqlite://", "k", "HS256", 30⟩
        ⟨[⟨1, "a@x", get_password_hash 1 "pw", .ADMIN, true⟩], [], [], [], [], []⟩
        "a@x" "pw" 0
        ⟨create_access_token "k" "a@x" (((30 : Nat) : Int) * 60) 0, "bearer", 30 * 60⟩
        rfl (by rfl) (by decide)⟩⟩

end MediKeep
